import Mathlib

/-!
Verification of the kokoro-mcp-server temporary-artifact lifecycle and
access-control layer.

The development shallowly embeds the Python sources:
- config.py       : HTTP_HOST, HTTP_PORT, TEMP_AUDIO_DIR
- http_server.py  : serve_audio (GET /audio/<filename>)
- main.py         : generate_speech_tool, cleanup_audio_tool, MockMCPServer
- kokoro_service.py : generate_speech_audio

Python strings are embedded as lists of characters, filesystem paths as
lists of path segments measured from the root, and the filesystem itself
as a finite association list from absolute paths to nodes (regular file,
directory, or symbolic link).  Path resolution (pathlib Path.resolve with
strict=False) is a fuel-bounded walk that follows dot-dot segments and
symbolic links before any containment check.
-/

namespace Kokoro

/-- Python strings are modelled as lists of characters. -/
abbrev Str := List Char

/-- Absolute filesystem paths are lists of path segments from the root. -/
abbrev AbsPath := List Str

/-- Model of str.split(sep) for a single-character separator; also the
segment decomposition used by pathlib when parsing a path string.  The
result is always non-empty. -/
def splitSep (sep : Char) : Str → List Str
  | [] => [[]]
  | c :: cs =>
    let r := splitSep sep cs
    if c = sep then [] :: r
    else (c :: r.headD []) :: r.tail

/-- Model of str.startswith for the checks in serve_audio. -/
def startsWith (pre s : Str) : Bool := pre.isPrefixOf s

/-- Split a string at the first character satisfying p: returns the part
before it and the remainder (beginning with the matching character when
one exists).  Used to model CPython urllib.parse.urlsplit. -/
def takeUntilChar (p : Char → Bool) : Str → Str × Str
  | [] => ([], [])
  | c :: cs =>
    if p c then ([], c :: cs)
    else
      let r := takeUntilChar p cs
      (c :: r.1, r.2)

/-- Characters permitted in a URL scheme by urllib.parse. -/
def isSchemeChar (c : Char) : Bool :=
  c.isAlpha || c.isDigit || c = '+' || c = '-' || c = '.'

/-- Lower-casing of a string, as CPython applies to the parsed scheme. -/
def toLowerStr (s : Str) : Str := s.map Char.toLower

/-- Scheme splitting step of urllib.parse.urlsplit: if the text before the
first colon is a non-empty run of scheme characters starting with a
letter, it is removed as the (lower-cased) scheme. -/
def splitScheme (url : Str) : Str × Str :=
  let r := takeUntilChar (fun c => c = ':') url
  match r.2 with
  | ':' :: rest =>
    if r.1 ≠ [] ∧ (r.1.headD ' ').isAlpha ∧ r.1.all isSchemeChar
    then (toLowerStr r.1, rest)
    else ([], url)
  | _ => ([], url)

/-- Result shape of urllib.parse.urlparse restricted to the components the
server reads (params are irrelevant here). -/
structure UrlParts where
  scheme : Str
  netloc : Str
  path : Str
  query : Str
  fragment : Str
deriving DecidableEq, Repr

/-- Model of urllib.parse.urlparse: scheme split first, then the network
location after a double slash up to a slash, question mark or hash, then
the fragment after the first hash, then the query after the first
question mark; the rest is the path. -/
def urlparse (url : Str) : UrlParts :=
  let s := splitScheme url
  let scheme := s.1
  let afterScheme := s.2
  let hasNetloc := startsWith ['/', '/'] afterScheme
  let n :=
    if hasNetloc
    then takeUntilChar (fun c => c = '/' || c = '?' || c = '#') (afterScheme.drop 2)
    else ([], afterScheme)
  let netloc := n.1
  let f := takeUntilChar (fun c => c = '#') n.2
  let fragment := f.2.tail
  let q := takeUntilChar (fun c => c = '?') f.1
  let query := q.2.tail
  { scheme := scheme, netloc := netloc, path := q.1,
    query := query, fragment := fragment }

/-- Model of pathlib PurePath(p).name: split the string on slashes, drop
empty and single-dot segments (pathlib discards both when parsing), and
take the last remaining segment, or the empty string when none remains. -/
def pathName (p : Str) : Str :=
  ((splitSep '/' p).filter (fun s => ¬ (s = [] ∨ s = ['.']))).getLastD []

/-- Filesystem node: a regular file (with an opaque content token and a
readability flag used to model I/O errors on open), a directory, or a
symbolic link carrying its target as parsed segments plus an
absoluteness flag. -/
inductive Node where
  | file (data : Nat) (readable : Bool)
  | dir
  | symlink (isAbs : Bool) (target : List Str)
deriving DecidableEq, Repr

/-- Association-list search for a path in the filesystem entries. -/
def fsFind : List (AbsPath × Node) → AbsPath → Option Node
  | [], _ => none
  | e :: es, p => if e.1 = p then some e.2 else fsFind es p

/-- Removal of every entry at a path from the filesystem entries. -/
def fsRemove : List (AbsPath × Node) → AbsPath → List (AbsPath × Node)
  | [], _ => []
  | e :: es, p => if e.1 = p then fsRemove es p else e :: fsRemove es p

/-- A filesystem is a finite association from absolute paths to nodes. -/
structure FS where
  entries : List (AbsPath × Node)
deriving DecidableEq, Repr

/-- Node stored at a path, if any. -/
def FS.lookup (fs : FS) (p : AbsPath) : Option Node := fsFind fs.entries p

/-- Effect of os.unlink on the model filesystem. -/
def FS.erase (fs : FS) (p : AbsPath) : FS := ⟨fsRemove fs.entries p⟩

/-- Path.is_file in the model: the path maps to a regular file node. -/
def FS.isFile (fs : FS) (p : AbsPath) : Bool :=
  match fs.lookup p with
  | some (.file _ _) => true
  | _ => false

/-- Symlink-following bound of pathlib resolution; resolution fails (the
way Python raises on symlink loops) when it is exhausted. -/
def RESOLVE_FUEL : Nat := 40

/-- Single sweep of pathlib resolution over the pending segments: empty
and single-dot segments are skipped, a dot-dot segment removes the last
resolved component, any other name that does not denote a symbolic link
(existing or not) is appended literally, and on the first symbolic link
the sweep stops, returning the state from which resolution must restart
with the link target spliced in front of the remaining segments. -/
def resolveRun (fs : FS) : AbsPath → List Str → AbsPath ⊕ (AbsPath × List Str)
  | cur, [] => .inl cur
  | cur, s :: rest =>
    if s = [] ∨ s = ['.'] then resolveRun fs cur rest
    else if s = ['.', '.'] then resolveRun fs cur.dropLast rest
    else
      match fs.lookup (cur ++ [s]) with
      | some (.symlink isAbs target) =>
        .inr ((if isAbs then [] else cur), target ++ rest)
      | _ => resolveRun fs (cur ++ [s]) rest

/-- Model of pathlib Path.resolve with strict=False, walking the pending
segments from an already-resolved base.  Each symbolic link encountered
spends one unit of fuel and restarts the sweep with the link target
(from the root when the target is absolute); exhausted fuel is the
resolution failure Python raises on symlink loops. -/
def resolveSegs (fs : FS) : Nat → AbsPath → List Str → Option AbsPath
  | fuel, cur, segs =>
    match resolveRun fs cur segs with
    | .inl r => some r
    | .inr (cur2, segs2) =>
      match fuel with
      | 0 => none
      | fuel' + 1 => resolveSegs fs fuel' cur2 segs2

/-- Segment decomposition of a client-supplied filename string, as
performed by pathlib when the string is joined onto a path. -/
def parseSegs (s : Str) : List Str := splitSep '/' s

/-- Containment as a strict descendant: the first path is a proper prefix
of the second.  This is exactly membership of the first path in the
pathlib parents sequence of the second. -/
def strictlyInside (base p : AbsPath) : Prop := base.isPrefixOf p ∧ p ≠ base

instance (base p : AbsPath) : Decidable (strictlyInside base p) := by
  unfold strictlyInside; infer_instance

/-- Last segment of a path, modelling pathlib Path.name on a resolved
absolute path. -/
def lastSeg (p : AbsPath) : Str := p.getLastD []

/-- A segment that resolution may append to a path: not empty, not a
single dot and not a dot-dot (those three are consumed by the walk and
never appear in freshly appended positions). -/
def goodSeg (s : Str) : Prop := s ≠ [] ∧ s ≠ ['.'] ∧ s ≠ ['.', '.']

/-- Every segment of a path beyond the first k positions is a good
segment.  Resolution preserves this for k the length of the starting
base, since it only ever appends good segments. -/
def tailGood (k : Nat) (p : AbsPath) : Prop := ∀ s ∈ p.drop k, goodSeg s

/-- Configured artifact directory (config.py TEMP_AUDIO_DIR), already in
resolved form: BASE_DIR / "temp_audio" with a concrete resolved BASE_DIR. -/
def TEMP_AUDIO_DIR : AbsPath :=
  ["app".data, "kokoro-mcp-server".data, "temp_audio".data]

/-- Configured HTTP host (config.py default). -/
def HTTP_HOST : Str := "127.0.0.1".data

/-- Configured HTTP port (config.py default). -/
def HTTP_PORT : Nat := 8080

/-- HTTP response produced by the serve_audio route: success with the
content token of the served file and its media type, a not-found
response, or an internal server error (the abort(500) branch). -/
inductive HttpResp where
  | ok (body : Nat) (mime : Str)
  | notFound
  | serverError
deriving DecidableEq, Repr

/-- Model of http_server.py serve_audio.  The second component records the
absolute paths of every file the handler opens for reading, so that the
no-read-outside-the-directory property is expressible.  Control flow
follows the source: the two literal startswith rejections, then
resolution of the joined path (a resolution failure raises and lands in
the generic exception handler, which aborts with 500), then the combined
is_file and parents containment test, then send_from_directory on the
directory and requested_path.name, which serves the path
TEMP_AUDIO_DIR/<last segment of the resolved path>.  Because both the
os.path.isfile test inside werkzeug and the subsequent open follow
symbolic links, that flattened path is itself resolved here, and the
file served is its resolution target — which a symbolic link at the
flattened name may place outside the directory.  A failing resolution
(symlink loop), a directory, a missing target, or a target left
unresolved by an exotic dot-dot link all make werkzeug raise NotFound,
which is not a FileNotFoundError and therefore reaches the generic
handler (500) with no file opened; an unreadable file models an OSError
on open, likewise 500 after the open attempt. -/
def serve_audio (fs : FS) (filename : Str) : HttpResp × List AbsPath :=
  if startsWith ['/'] filename || startsWith ['\\'] filename then
    (.notFound, [])
  else if startsWith "%2F".data filename || startsWith "%5C".data filename then
    (.notFound, [])
  else
    match resolveSegs fs RESOLVE_FUEL TEMP_AUDIO_DIR (parseSegs filename) with
    | none => (.serverError, [])
    | some rp =>
      if ¬ fs.isFile rp ∨ ¬ strictlyInside TEMP_AUDIO_DIR rp then
        (.notFound, [])
      else
        match resolveSegs fs RESOLVE_FUEL TEMP_AUDIO_DIR [lastSeg rp] with
        | none => (.serverError, [])
        | some q =>
          match fs.lookup q with
          | some (.file d true) => (.ok d "audio/wav".data, [q])
          | some (.file _ false) => (.serverError, [q])
          | _ => (.serverError, [])

deriving instance DecidableEq for Except

/-- Python exception classes that reach the dispatch boundary. -/
inductive PyErr where
  | valueError (msg : Str)
  | runtimeError (msg : Str)
  | mockServerError (msg : Str)
deriving DecidableEq, Repr

/-- Message text of an exception, modelling str(e). -/
def pyErrMsg : PyErr → Str
  | .valueError m => m
  | .runtimeError m => m
  | .mockServerError m => m

/-- Result dictionary of cleanup_audio: the success flag and the optional
error string. -/
structure CleanupRes where
  success : Bool
  error : Option Str
deriving DecidableEq, Repr

/-- URI validation and filename extraction of cleanup_audio (main.py lines
158 to 166): urlparse, the all-components-present check, and the final
path segment, each failure being the ValueError message the code raises. -/
def extractFilename (audio_uri : Str) : Except Str Str :=
  let u := urlparse audio_uri
  if u.scheme = [] ∨ u.netloc = [] ∨ u.path = [] then
    .error "Invalid audio URI format".data
  else
    let filename := pathName u.path
    if filename = [] then .error "Could not extract filename from URI path".data
    else .ok filename

/-- Message prefix cleanup_audio attaches when wrapping a failure into
MockMCPServerError. -/
def cleanupMsg (m : Str) : Str := "Cleanup failed: ".data ++ m

/-- Model of main.py cleanup_audio_tool.  Returns the tool outcome (a
result dictionary, or the exception propagated to the dispatcher), the
filesystem after the call, and the list of paths passed to unlink.
An empty URI raises ValueError outside the try block, so it escapes
unchanged; every ValueError raised inside the try block is re-raised as
MockMCPServerError with the Cleanup failed prefix.  The candidate
filename is resolved once and both the containment check
(is_relative_to, a non-strict prefix test) and the unlink act on that
resolved path. -/
def cleanup_audio_tool (fs : FS) (audio_uri : Str) :
    Except PyErr CleanupRes × FS × List AbsPath :=
  if audio_uri = [] then
    (.error (.valueError "Missing required argument: audio_uri".data), fs, [])
  else
    match extractFilename audio_uri with
    | .error m => (.error (.mockServerError (cleanupMsg m)), fs, [])
    | .ok filename =>
      match resolveSegs fs RESOLVE_FUEL TEMP_AUDIO_DIR (parseSegs filename) with
      | none =>
        (.error (.mockServerError
          (cleanupMsg "Invalid audio URI (path resolution failed)".data)), fs, [])
      | some rp =>
        if TEMP_AUDIO_DIR.isPrefixOf rp then
          if fs.isFile rp then (.ok ⟨true, none⟩, fs.erase rp, [rp])
          else (.ok ⟨false, some "File not found at specified URI".data⟩, fs, [])
        else
          (.error (.mockServerError
            (cleanupMsg "Invalid audio URI (path mismatch)".data)), fs, [])

/-- Alphabet of CPython tempfile.RandomNameSequence, from which mkstemp
draws the random part of a generated filename. -/
def TMP_ALPHABET : Str := "abcdefghijklmnopqrstuvwxyz0123456789_".data

/-- Characterization of the filenames the artifact store produces:
tempfile.mkstemp with suffix ".wav" yields the default prefix "tmp",
then characters from the RandomNameSequence alphabet, then the suffix. -/
def isStoreName (fn : Str) : Prop :=
  ∃ core, fn = "tmp".data ++ core ++ ".wav".data ∧ ∀ c ∈ core, c ∈ TMP_ALPHABET

/-- Name allocator modelling tempfile.mkstemp: a source of random cores
drawn from the tempfile alphabet, indexed by the allocator state.  The
allocator depends only on its own state, never on client input. -/
structure Alloc where
  core : Nat → Str
  core_mem : ∀ n c, c ∈ core n → c ∈ TMP_ALPHABET

/-- Filename produced by tempfile.mkstemp(suffix=".wav", dir=...) at a
given allocator state. -/
def mkstempName (a : Alloc) (n : Nat) : Str :=
  "tmp".data ++ a.core n ++ ".wav".data

/-- Python value passed for the speed parameter: already numeric, or a
string that float() must coerce. -/
inductive PyVal where
  | num (x : Int)
  | str (s : Str)
deriving DecidableEq, Repr

/-- Decimal-numeral test for the string form of float(); the model
accepts non-empty digit strings. -/
def isNumericStr (s : Str) : Bool := ¬ s = [] && s.all Char.isDigit

/-- Numeric value of a digit string. -/
def strToInt (s : Str) : Int :=
  Int.ofNat (s.foldl (fun a c => a * 10 + (c.toNat - 48)) 0)

/-- Model of Python float(speed): numbers pass through; a string parses
or raises ValueError.  Numeric magnitudes are embedded as integers since
no claim depends on fractional values. -/
def pyFloat : PyVal → Except Str Int
  | .num x => .ok x
  | .str s =>
    if isNumericStr s then .ok (strToInt s)
    else .error "could not convert string to float".data

/-- One audio segment lazily produced by the Kokoro pipeline; its content
is opaque to the artifact layer. -/
structure Segment where
  ps : Nat
deriving DecidableEq, Repr

/-- State of kokoro_service.py: whether the model is initialized, the
cached voice catalog keys, the language codes with loaded pipelines, the
external engine as an opaque function from (text, voice, speed) to the
list of segments its generator would lazily yield, and the mkstemp
allocator with its current state. -/
structure KokoroSvc where
  modelLoaded : Bool
  voices : List Str
  pipelines : List Char
  engine : Str → Str → Int → List Segment
  alloc : Alloc
  allocCounter : Nat

/-- Observable effects of one generate_speech_audio call: how many times
the engine pipeline was invoked, how many of its segments were consumed
(the loop breaks after the first), and the artifact paths created. -/
structure SvcTrace where
  engineInvocations : Nat
  segmentsConsumed : Nat
  created : List AbsPath
deriving DecidableEq, Repr

/-- Model of kokoro_service.py generate_speech_audio.  Precondition
checks in source order: initialized model (RuntimeError), voice in the
catalog (ValueError), pipeline for the first character of the voice id
(RuntimeError).  Then the engine is invoked once; the loop consumes
only the first segment and breaks.  Zero segments raises ValueError
inside the try block, which the generic except clause re-raises as
RuntimeError with the wrapping message; otherwise mkstemp allocates a
fresh server-side name inside TEMP_AUDIO_DIR and the wave file is
written there. -/
def generate_speech_audio (svc : KokoroSvc) (text voice_id : Str) (speed : Int) :
    Except PyErr AbsPath × SvcTrace :=
  if ¬ svc.modelLoaded then
    (.error (.runtimeError "Kokoro model not initialized.".data), ⟨0, 0, []⟩)
  else if ¬ voice_id ∈ svc.voices then
    (.error (.valueError ("Invalid voice_id: ".data ++ voice_id)), ⟨0, 0, []⟩)
  else if ¬ voice_id.headD ' ' ∈ svc.pipelines then
    (.error (.runtimeError "Internal error: Pipeline missing for language code".data),
     ⟨0, 0, []⟩)
  else
    match svc.engine text voice_id speed with
    | [] =>
      (.error (.runtimeError
        ("Audio generation failed: ".data ++
         "Failed to generate any audio segments from the input.".data)),
       ⟨1, 0, []⟩)
    | _ :: _ =>
      let path := TEMP_AUDIO_DIR ++ [mkstempName svc.alloc svc.allocCounter]
      (.ok path, ⟨1, 1, [path]⟩)

/-- URI construction of generate_speech (main.py line 137). -/
def buildUri (filename : Str) : Str :=
  "http://".data ++ HTTP_HOST ++ [':'] ++ (Nat.repr HTTP_PORT).data ++
    "/audio/".data ++ filename

/-- Result dictionary of a successful generate_speech call. -/
structure GenRes where
  audio_uri : Str
  format : Str
deriving DecidableEq, Repr

/-- Model of main.py generate_speech_tool.  Empty text or voice raises
ValueError outside the try block (before any collaborator is touched);
float coercion failure and every service-layer ValueError, RuntimeError
or FileNotFoundError are re-raised as MockMCPServerError carrying the
original message; success builds the audio URI from the artifact
filename. -/
def generate_speech_tool (svc : KokoroSvc) (text voice_id : Str) (speed : PyVal) :
    Except PyErr GenRes × SvcTrace :=
  if text = [] ∨ voice_id = [] then
    (.error (.valueError "Missing required arguments: text and voice_id".data),
     ⟨0, 0, []⟩)
  else
    match pyFloat speed with
    | .error m => (.error (.mockServerError m), ⟨0, 0, []⟩)
    | .ok sp =>
      match generate_speech_audio svc text voice_id sp with
      | (.error e, tr) => (.error (.mockServerError (pyErrMsg e)), tr)
      | (.ok path, tr) => (.ok ⟨buildUri (lastSeg path), "wav".data⟩, tr)

/-- Tool request reaching MockMCPServer._handle_request after parameter
binding: one constructor per registered tool plus an unknown method. -/
inductive Request where
  | listVoices
  | generateSpeech (text voice_id : Str) (speed : PyVal)
  | cleanupAudio (audio_uri : Str)
  | unknownMethod (method : Str)

/-- Dispatch outcome: a JSON-RPC result, or an error envelope with its
numeric code and message. -/
inductive RpcOut where
  | result
  | rpcError (code : Int) (message : Str)
deriving DecidableEq, Repr

/-- Error-code mapping of _handle_request (main.py lines 51 to 56): the
code defaults to the generic server error -32000 and becomes -32602
exactly when the escaped exception is a ValueError. -/
def errCodeOf : PyErr → Int
  | .valueError _ => -32602
  | _ => -32000

/-- Model of MockMCPServer._handle_request: an unknown method produces the
-32601 envelope; a registered tool runs, a raised exception becoming an
error envelope via errCodeOf, and cleanup additionally threading its
filesystem effect. -/
def handle_request (svc : KokoroSvc) (fs : FS) : Request → RpcOut × FS
  | .listVoices => (.result, fs)
  | .generateSpeech t v s =>
    match generate_speech_tool svc t v s with
    | (.ok _, _) => (.result, fs)
    | (.error e, _) => (.rpcError (errCodeOf e) (pyErrMsg e), fs)
  | .cleanupAudio uri =>
    match cleanup_audio_tool fs uri with
    | (.ok _, fs', _) => (.result, fs')
    | (.error e, fs', _) => (.rpcError (errCodeOf e) (pyErrMsg e), fs')
  | .unknownMethod m => (.rpcError (-32601) ("Method not found: ".data ++ m), fs)

/-- The resolution pipeline of cleanup_audio in isolation: the candidate
filename extracted from the URI, resolved against the artifact
directory.  This is the single resolved path on which both the
containment check and the unlink of cleanup_audio_tool act. -/
def cleanupResolved (fs : FS) (audio_uri : Str) : Option AbsPath :=
  match extractFilename audio_uri with
  | .error _ => none
  | .ok filename => resolveSegs fs RESOLVE_FUEL TEMP_AUDIO_DIR (parseSegs filename)

/-- Whether an optional node is a symbolic link. -/
def isSymlinkNode : Option Node → Bool
  | some (.symlink _ _) => true
  | _ => false

/-- Plain single-segment filenames: non-empty, not a dot or dot-dot
segment, and free of the characters that the URI or path syntax would
consume.  Every store-produced name satisfies this. -/
def goodName (fn : Str) : Prop :=
  fn ≠ [] ∧ fn ≠ ['.'] ∧ fn ≠ ['.', '.'] ∧
    ('/' ∉ fn) ∧ ('?' ∉ fn) ∧ ('#' ∉ fn) ∧ ('\\' ∉ fn) ∧ ('%' ∉ fn)

instance (fn : Str) : Decidable (goodName fn) := by
  unfold goodName; infer_instance

/-- Concrete artifact directory state with one stored artifact, used to
instantiate the general theorems. -/
def fsDemo : FS :=
  ⟨[(TEMP_AUDIO_DIR, .dir),
    (TEMP_AUDIO_DIR ++ ["tmpabc.wav".data], .file 7 true)]⟩

/-- Concrete state whose stored artifact cannot be opened for reading,
modelling an I/O error inside the file-serving path. -/
def fsUnreadable : FS :=
  ⟨[(TEMP_AUDIO_DIR, .dir),
    (TEMP_AUDIO_DIR ++ ["tmpabc.wav".data], .file 7 false)]⟩

/-- Concrete state in which the artifact directory holds a nested regular
file sub/f.wav and, at the directory root, a symbolic link f.wav whose
target lies outside the directory.  Requesting sub/f.wav passes every
check of serve_audio, but the flattened send step serves the link
target. -/
def fsLeak : FS :=
  ⟨[(TEMP_AUDIO_DIR, .dir),
    (TEMP_AUDIO_DIR ++ ["sub".data], .dir),
    (TEMP_AUDIO_DIR ++ ["sub".data, "f.wav".data], .file 3 true),
    (TEMP_AUDIO_DIR ++ ["f.wav".data], .symlink true ["etc".data, "secret".data]),
    (["etc".data, "secret".data], .file 9 true)]⟩

/-- Concrete state containing a symbolic link that resolves to the
artifact directory itself. -/
def fsSelfLink : FS :=
  ⟨[(TEMP_AUDIO_DIR, .dir),
    (TEMP_AUDIO_DIR ++ ["self".data], .symlink false [['.']]),
    (TEMP_AUDIO_DIR ++ ["tmpabc.wav".data], .file 7 true)]⟩

/-- Concrete allocator drawing a fixed core from the tempfile alphabet. -/
def allocDemo : Alloc :=
  ⟨fun _ => "abcd0123".data,
   fun _ => (by decide : ∀ c ∈ "abcd0123".data, c ∈ TMP_ALPHABET)⟩

/-- Concrete service state: initialized, one voice for language code a,
and an engine yielding no segment for the text x and one segment for
every other text. -/
def svcDemo : KokoroSvc :=
  { modelLoaded := true
    voices := ["af_demo".data]
    pipelines := ['a']
    engine := fun t _ _ => if t = "x".data then [] else [⟨5⟩]
    alloc := allocDemo
    allocCounter := 0 }

/-! Helper lemmas about the string-splitting primitives. -/

theorem splitSep_ne_nil (sep : Char) (l : Str) : splitSep sep l ≠ [] := by
  cases l with
  | nil => simp [splitSep]
  | cons c cs =>
    simp only [splitSep]
    split <;> simp

theorem splitSep_no_sep (sep : Char) (l : Str) (h : sep ∉ l) : splitSep sep l = [l] := by
  induction l with
  | nil => rfl
  | cons c cs ih =>
    simp only [List.mem_cons, not_or] at h
    simp [splitSep, ih h.2, Ne.symm h.1]

theorem splitSep_append (sep : Char) (a b : Str) (h : sep ∉ a) :
    splitSep sep (a ++ sep :: b) = a :: splitSep sep b := by
  induction a with
  | nil => simp [splitSep]
  | cons c cs ih =>
    simp only [List.mem_cons, not_or] at h
    simp [splitSep, ih h.2, Ne.symm h.1]

theorem parseSegs_no_slash (fn : Str) (h : '/' ∉ fn) : parseSegs fn = [fn] :=
  splitSep_no_sep '/' fn h

theorem takeUntilChar_no (p : Char → Bool) (l : Str) (h : ∀ c ∈ l, ¬ p c) :
    takeUntilChar p l = (l, []) := by
  induction l with
  | nil => rfl
  | cons c cs ih =>
    have hc : ¬ p c := h c (by simp)
    simp [takeUntilChar, hc, ih (fun d hd => h d (by simp [hd]))]

theorem takeUntilChar_append (p : Char → Bool) (a b : Str) (h : ∀ c ∈ a, ¬ p c) :
    takeUntilChar p (a ++ b) =
      ((a ++ (takeUntilChar p b).1 : Str), (takeUntilChar p b).2) := by
  induction a with
  | nil => rfl
  | cons c cs ih =>
    have hc : ¬ p c := h c (by simp)
    simp [takeUntilChar, hc, ih (fun d hd => h d (by simp [hd]))]

/-! Lemmas about URI construction and parsing. -/

theorem splitScheme_buildUri (fn : Str) :
    splitScheme (buildUri fn) = ("http".data, "//127.0.0.1:8080/audio/".data ++ fn) := by
  have e1 : buildUri fn = "http".data ++ (':' :: ("//127.0.0.1:8080/audio/".data ++ fn)) := rfl
  rw [splitScheme, e1, takeUntilChar_append _ _ _ (by decide)]
  simp only [takeUntilChar]
  rw [if_pos (by decide)]
  rfl

theorem takeUntilChar_not_mem (c0 : Char) (l : Str) (h : c0 ∉ l) :
    takeUntilChar (fun c => c = c0) l = (l, []) := by
  refine takeUntilChar_no _ _ ?_
  intro c hc
  simp only [decide_eq_true_eq]
  intro he; subst he; exact h hc

theorem urlparse_buildUri (fn : Str) (hq : '?' ∉ fn) (hh : '#' ∉ fn) :
    urlparse (buildUri fn) =
      ⟨"http".data, "127.0.0.1:8080".data, "/audio/".data ++ fn, [], []⟩ := by
  have hnet : takeUntilChar (fun c => c = '/' || c = '?' || c = '#')
      (("//127.0.0.1:8080/audio/".data ++ fn).drop 2) =
      ("127.0.0.1:8080".data, '/' :: ("audio/".data ++ fn)) := by
    have e2 : ("//127.0.0.1:8080/audio/".data ++ fn).drop 2 =
        "127.0.0.1:8080".data ++ ('/' :: ("audio/".data ++ fn)) := rfl
    rw [e2, takeUntilChar_append _ _ _ (by decide)]
    simp [takeUntilChar]
  have hmem : ∀ c0 : Char, ¬ c0 = '/' → c0 ∉ "audio/".data → c0 ∉ fn →
      c0 ∉ ('/' :: ("audio/".data ++ fn)) := by
    intro c0 h1 h2 h3 hc
    rcases List.mem_cons.mp hc with he | hc2
    · exact h1 he
    · rcases List.mem_append.mp hc2 with h | h
      · exact h2 h
      · exact h3 h
  have hfrag := takeUntilChar_not_mem '#' ('/' :: ("audio/".data ++ fn))
    (hmem '#' (by decide) (by decide) hh)
  have hquery := takeUntilChar_not_mem '?' ('/' :: ("audio/".data ++ fn))
    (hmem '?' (by decide) (by decide) hq)
  rw [urlparse, splitScheme_buildUri]
  simp only [startsWith, hnet]
  split
  · simp only [hfrag]
    simp only [hquery]
    rfl
  · next h => exact absurd rfl h

theorem pathName_audio (fn : Str) (h : '/' ∉ fn) (h0 : fn ≠ []) (h1 : fn ≠ ['.']) :
    pathName ("/audio/".data ++ fn) = fn := by
  have e : ("/audio/".data ++ fn : Str) = '/' :: ("audio".data ++ '/' :: fn) := rfl
  rw [pathName, e]
  have e2 : splitSep '/' ('/' :: ("audio".data ++ '/' :: fn)) =
      [] :: splitSep '/' ("audio".data ++ '/' :: fn) := by
    simp [splitSep]
  rw [e2, splitSep_append '/' _ _ (by decide), splitSep_no_sep '/' fn h]
  simp [List.filter, h0, h1]

theorem extractFilename_buildUri (fn : Str) (h7 : '/' ∉ fn) (hq : '?' ∉ fn)
    (hh : '#' ∉ fn) (h0 : fn ≠ []) (h1 : fn ≠ ['.']) :
    extractFilename (buildUri fn) = .ok fn := by
  rw [extractFilename, urlparse_buildUri fn hq hh]
  simp only []
  rw [if_neg (by simp), pathName_audio fn h7 h0 h1, if_neg h0]

theorem isStoreName_not_mem (fn : Str) (h : isStoreName fn) (c : Char)
    (hc1 : c ∉ "tmp".data) (hc2 : c ∉ ".wav".data) (hc3 : c ∉ TMP_ALPHABET) :
    c ∉ fn := by
  obtain ⟨core, rfl, hmem⟩ := h
  intro hc
  rcases List.mem_append.mp hc with hc | hc
  · rcases List.mem_append.mp hc with hc | hc
    · exact hc1 hc
    · exact hc3 (hmem c hc)
  · exact hc2 hc

theorem isStoreName_ne_nil (fn : Str) (h : isStoreName fn) : fn ≠ [] := by
  obtain ⟨core, rfl, -⟩ := h
  simp

theorem isStoreName_good (fn : Str) (h : isStoreName fn) : goodName fn := by
  refine ⟨isStoreName_ne_nil fn h, ?_, ?_, ?_, ?_, ?_, ?_, ?_⟩
  · obtain ⟨core, rfl, -⟩ := h
    intro he
    have := congrArg (fun l => l.headD ' ') he
    simp at this
  · obtain ⟨core, rfl, -⟩ := h
    intro he
    have := congrArg (fun l => l.headD ' ') he
    simp at this
  · exact isStoreName_not_mem fn h '/' (by decide) (by decide) (by decide)
  · exact isStoreName_not_mem fn h '?' (by decide) (by decide) (by decide)
  · exact isStoreName_not_mem fn h '#' (by decide) (by decide) (by decide)
  · exact isStoreName_not_mem fn h '\\' (by decide) (by decide) (by decide)
  · exact isStoreName_not_mem fn h '%' (by decide) (by decide) (by decide)

theorem resolveSegs_nil (fs : FS) (fuel : Nat) (cur : AbsPath) :
    resolveSegs fs fuel cur [] = some cur := by
  simp [resolveSegs, resolveRun]

theorem resolveRun_single (fs : FS) (base : AbsPath) (n : Str)
    (h0 : n ≠ []) (h1 : n ≠ ['.']) (h2 : n ≠ ['.', '.'])
    (hs : isSymlinkNode (fs.lookup (base ++ [n])) = false) :
    resolveRun fs base [n] = .inl (base ++ [n]) := by
  rw [resolveRun, if_neg (by simp [h0, h1]), if_neg h2]
  cases hlk : fs.lookup (base ++ [n]) with
  | none => rfl
  | some node =>
    cases node with
    | file d r => rfl
    | dir => rfl
    | symlink a t =>
      rw [hlk] at hs
      simp [isSymlinkNode] at hs

theorem resolveSegs_single (fs : FS) (fuel : Nat) (base : AbsPath) (n : Str)
    (h0 : n ≠ []) (h1 : n ≠ ['.']) (h2 : n ≠ ['.', '.'])
    (hs : isSymlinkNode (fs.lookup (base ++ [n])) = false) :
    resolveSegs fs fuel base [n] = some (base ++ [n]) := by
  rw [resolveSegs, resolveRun_single fs base n h0 h1 h2 hs]

theorem strictlyInside_append (base : AbsPath) (n : Str) :
    strictlyInside base (base ++ [n]) := by
  constructor
  · simp
  · intro h
    have := congrArg List.length h
    simp at this

theorem fsFind_remove_self (es : List (AbsPath × Node)) (p : AbsPath) :
    fsFind (fsRemove es p) p = none := by
  induction es with
  | nil => rfl
  | cons e es ih =>
    by_cases he : e.1 = p
    · simp [fsRemove, he, ih]
    · simp [fsRemove, he, fsFind, ih]

theorem fsFind_remove_ne (es : List (AbsPath × Node)) (p q : AbsPath) (h : q ≠ p) :
    fsFind (fsRemove es p) q = fsFind es q := by
  induction es with
  | nil => rfl
  | cons e es ih =>
    by_cases he : e.1 = p
    · simp [fsRemove, he, fsFind, ih, Ne.symm h]
    · simp [fsRemove, he, fsFind, ih]

theorem FS.lookup_erase_self (fs : FS) (p : AbsPath) : (fs.erase p).lookup p = none :=
  fsFind_remove_self fs.entries p

theorem FS.lookup_erase_ne (fs : FS) (p q : AbsPath) (h : q ≠ p) :
    (fs.erase p).lookup q = fs.lookup q :=
  fsFind_remove_ne fs.entries p q h

theorem lastSeg_append (base : AbsPath) (n : Str) : lastSeg (base ++ [n]) = n := by
  rw [lastSeg]
  exact List.getLastD_concat _ _ _

theorem tailGood_nil (k : Nat) : tailGood k [] := by
  intro x hx
  simp at hx

theorem tailGood_append (k : Nat) (p : AbsPath) (s : Str)
    (hp : tailGood k p) (hs : goodSeg s) : tailGood k (p ++ [s]) := by
  intro x hx
  rw [List.drop_append_eq_append_drop] at hx
  rcases List.mem_append.mp hx with h | h
  · exact hp x h
  · have hx2 : x ∈ [s] := List.drop_subset _ _ h
    rw [List.mem_singleton] at hx2
    subst hx2
    exact hs

theorem tailGood_dropLast (k : Nat) (p : AbsPath) (hp : tailGood k p) :
    tailGood k p.dropLast := by
  intro x hx
  apply hp
  rw [List.dropLast_eq_take, List.drop_take] at hx
  exact List.take_subset _ _ hx

theorem resolveRun_tailGood (fs : FS) (k : Nat) (segs : List Str) :
    ∀ (cur : AbsPath), tailGood k cur →
      (∀ rp, resolveRun fs cur segs = .inl rp → tailGood k rp) ∧
      (∀ cur2 segs2, resolveRun fs cur segs = .inr (cur2, segs2) → tailGood k cur2) := by
  induction segs with
  | nil =>
    intro cur hcur
    constructor
    · intro rp h
      rw [resolveRun] at h
      cases h
      exact hcur
    · intro c2 s2 h
      rw [resolveRun] at h
      cases h
  | cons s rest ih =>
    intro cur hcur
    by_cases h1 : s = [] ∨ s = ['.']
    · have he : resolveRun fs cur (s :: rest) = resolveRun fs cur rest := by
        rw [resolveRun, if_pos h1]
      rw [he]
      exact ih cur hcur
    by_cases h2 : s = ['.', '.']
    · have he : resolveRun fs cur (s :: rest) = resolveRun fs cur.dropLast rest := by
        rw [resolveRun, if_neg h1, if_pos h2]
      rw [he]
      exact ih cur.dropLast (tailGood_dropLast k cur hcur)
    have hgood : goodSeg s := ⟨fun h => h1 (Or.inl h), fun h => h1 (Or.inr h), h2⟩
    cases hlk : fs.lookup (cur ++ [s]) with
    | none =>
      have he : resolveRun fs cur (s :: rest) = resolveRun fs (cur ++ [s]) rest := by
        rw [resolveRun, if_neg h1, if_neg h2, hlk]
      rw [he]
      exact ih (cur ++ [s]) (tailGood_append k cur s hcur hgood)
    | some node =>
      cases node with
      | file d r =>
        have he : resolveRun fs cur (s :: rest) = resolveRun fs (cur ++ [s]) rest := by
          rw [resolveRun, if_neg h1, if_neg h2, hlk]
        rw [he]
        exact ih (cur ++ [s]) (tailGood_append k cur s hcur hgood)
      | dir =>
        have he : resolveRun fs cur (s :: rest) = resolveRun fs (cur ++ [s]) rest := by
          rw [resolveRun, if_neg h1, if_neg h2, hlk]
        rw [he]
        exact ih (cur ++ [s]) (tailGood_append k cur s hcur hgood)
      | symlink isAbs target =>
        have he : resolveRun fs cur (s :: rest) =
            .inr ((if isAbs then [] else cur), target ++ rest) := by
          rw [resolveRun, if_neg h1, if_neg h2, hlk]
        rw [he]
        constructor
        · intro rp h
          cases h
        · intro c2 s2 h
          cases h
          cases isAbs with
          | true => exact tailGood_nil k
          | false => exact hcur

theorem resolveSegs_tailGood (fs : FS) (k : Nat) :
    ∀ (fuel : Nat) (cur : AbsPath) (segs : List Str) (rp : AbsPath),
      tailGood k cur → resolveSegs fs fuel cur segs = some rp → tailGood k rp := by
  intro fuel
  induction fuel with
  | zero =>
    intro cur segs rp hcur h
    rw [resolveSegs] at h
    split at h
    · next r heq =>
      cases h
      exact (resolveRun_tailGood fs k segs cur hcur).1 _ heq
    · next c2 s2 heq =>
      exact Option.noConfusion h
  | succ fuel2 ih =>
    intro cur segs rp hcur h
    rw [resolveSegs] at h
    split at h
    · next r heq =>
      cases h
      exact (resolveRun_tailGood fs k segs cur hcur).1 _ heq
    · next c2 s2 heq =>
      exact ih c2 s2 rp ((resolveRun_tailGood fs k segs cur hcur).2 c2 s2 heq) h

theorem resolveSegs_lastSeg_good (fs : FS) (segs : List Str) (rp : AbsPath)
    (h : resolveSegs fs RESOLVE_FUEL TEMP_AUDIO_DIR segs = some rp)
    (hin : strictlyInside TEMP_AUDIO_DIR rp) :
    goodSeg (lastSeg rp) := by
  have htail : tailGood TEMP_AUDIO_DIR.length rp :=
    resolveSegs_tailGood fs TEMP_AUDIO_DIR.length RESOLVE_FUEL TEMP_AUDIO_DIR segs rp
      (by intro x hx; simp at hx) h
  obtain ⟨hpre, hne⟩ := hin
  have hpre2 : TEMP_AUDIO_DIR <+: rp := by simpa using hpre
  obtain ⟨extra, rfl⟩ := hpre2
  have hex : extra ≠ [] := by
    intro he
    subst he
    simp at hne
  rcases List.eq_nil_or_concat extra with he | ⟨init, a, rfl⟩
  · exact absurd he hex
  · rw [List.concat_eq_append] at htail ⊢
    have hlast : lastSeg (TEMP_AUDIO_DIR ++ (init ++ [a])) = a := by
      rw [← List.append_assoc]
      exact lastSeg_append _ _
    rw [hlast]
    apply htail
    rw [List.drop_left]
    simp

theorem serve_audio_opened_inside (fs : FS) (filename : Str)
    (hns : ∀ n, isSymlinkNode (fs.lookup (TEMP_AUDIO_DIR ++ [n])) = false) :
    ∀ p ∈ (serve_audio fs filename).2, strictlyInside TEMP_AUDIO_DIR p := by
  intro p hp
  rw [serve_audio] at hp
  split at hp
  · simp at hp
  split at hp
  · simp at hp
  split at hp
  · simp at hp
  next rp heq1 =>
    split at hp
    · simp at hp
    next hcond =>
      have hstrict : strictlyInside TEMP_AUDIO_DIR rp := by
        by_contra hc
        exact hcond (Or.inr hc)
      have hgood := resolveSegs_lastSeg_good fs (parseSegs filename) rp heq1 hstrict
      have hres2 : resolveSegs fs RESOLVE_FUEL TEMP_AUDIO_DIR [lastSeg rp] =
          some (TEMP_AUDIO_DIR ++ [lastSeg rp]) :=
        resolveSegs_single fs RESOLVE_FUEL TEMP_AUDIO_DIR (lastSeg rp)
          hgood.1 hgood.2.1 hgood.2.2 (hns (lastSeg rp))
      split at hp
      · simp at hp
      next q heq2 =>
        rw [hres2] at heq2
        have hq : q = TEMP_AUDIO_DIR ++ [lastSeg rp] := (Option.some.inj heq2).symm
        subst hq
        split at hp
        · simp at hp
          subst hp
          exact strictlyInside_append _ _
        · simp at hp
          subst hp
          exact strictlyInside_append _ _
        · simp at hp

theorem startsWith_cons_mem (c : Char) (t s : Str) (h : startsWith (c :: t) s = true) :
    c ∈ s := by
  cases s with
  | nil => simp [startsWith, List.isPrefixOf] at h
  | cons a l =>
    simp only [startsWith, List.isPrefixOf, Bool.and_eq_true, beq_iff_eq] at h
    exact List.mem_cons.mpr (Or.inl h.1)

theorem goodName_not_sep (n : Str) (hg : goodName n) :
    ¬ (startsWith ['/'] n || startsWith ['\\'] n) = true := by
  obtain ⟨-, -, -, h7, -, -, hb, -⟩ := hg
  simp only [Bool.or_eq_true]
  rintro (hs | hs)
  · exact h7 (startsWith_cons_mem '/' [] n hs)
  · exact hb (startsWith_cons_mem '\\' [] n hs)

theorem goodName_not_pct (n : Str) (hg : goodName n) :
    ¬ (startsWith "%2F".data n || startsWith "%5C".data n) = true := by
  obtain ⟨-, -, -, -, -, -, -, hp⟩ := hg
  simp only [Bool.or_eq_true]
  rintro (hs | hs)
  · exact hp (startsWith_cons_mem '%' "2F".data n hs)
  · exact hp (startsWith_cons_mem '%' "5C".data n hs)

theorem serve_audio_reject (fs : FS) (filename : Str)
    (h : (startsWith ['/'] filename || startsWith ['\\'] filename ||
          startsWith "%2F".data filename || startsWith "%5C".data filename) = true) :
    serve_audio fs filename = (.notFound, []) := by
  rw [serve_audio]
  by_cases h1 : (startsWith ['/'] filename || startsWith ['\\'] filename) = true
  · rw [if_pos h1]
  · have h2 : (startsWith "%2F".data filename || startsWith "%5C".data filename) = true := by
      simp only [Bool.or_eq_true] at h h1 ⊢
      rcases h with ((h | h) | h) | h
      · exact absurd (Or.inl h) h1
      · exact absurd (Or.inr h) h1
      · exact Or.inl h
      · exact Or.inr h
    rw [if_neg h1, if_pos h2]

theorem serve_audio_resolved (fs : FS) (filename : Str) (rp : AbsPath)
    (h1 : ¬ (startsWith ['/'] filename || startsWith ['\\'] filename) = true)
    (h2 : ¬ (startsWith "%2F".data filename || startsWith "%5C".data filename) = true)
    (hres : resolveSegs fs RESOLVE_FUEL TEMP_AUDIO_DIR (parseSegs filename) = some rp) :
    serve_audio fs filename =
      if ¬ fs.isFile rp = true ∨ ¬ strictlyInside TEMP_AUDIO_DIR rp then
        (.notFound, [])
      else
        match resolveSegs fs RESOLVE_FUEL TEMP_AUDIO_DIR [lastSeg rp] with
        | none => (.serverError, [])
        | some q =>
          match fs.lookup q with
          | some (.file d true) => (.ok d "audio/wav".data, [q])
          | some (.file _ false) => (.serverError, [q])
          | _ => (.serverError, []) := by
  rw [serve_audio, if_neg h1, if_neg h2, hres]

theorem serve_audio_not_inside (fs : FS) (filename : Str) (rp : AbsPath)
    (hres : resolveSegs fs RESOLVE_FUEL TEMP_AUDIO_DIR (parseSegs filename) = some rp)
    (h : ¬ strictlyInside TEMP_AUDIO_DIR rp) :
    serve_audio fs filename = (.notFound, []) := by
  by_cases h1 : (startsWith ['/'] filename || startsWith ['\\'] filename) = true
  · rw [serve_audio, if_pos h1]
  by_cases h2 : (startsWith "%2F".data filename || startsWith "%5C".data filename) = true
  · rw [serve_audio, if_neg h1, if_pos h2]
  rw [serve_audio_resolved fs filename rp h1 h2 hres, if_pos (Or.inr h)]

theorem goodName_resolve (fs : FS) (n : Str) (hg : goodName n)
    (hs : isSymlinkNode (fs.lookup (TEMP_AUDIO_DIR ++ [n])) = false) :
    resolveSegs fs RESOLVE_FUEL TEMP_AUDIO_DIR (parseSegs n) =
      some (TEMP_AUDIO_DIR ++ [n]) := by
  obtain ⟨h0, h1, h2, h7, -⟩ := hg
  rw [parseSegs_no_slash n h7]
  exact resolveSegs_single fs RESOLVE_FUEL TEMP_AUDIO_DIR n h0 h1 h2 hs

theorem serve_audio_direct (fs : FS) (n : Str) (d : Nat) (r : Bool)
    (hg : goodName n)
    (hlk : fs.lookup (TEMP_AUDIO_DIR ++ [n]) = some (.file d r)) :
    serve_audio fs n =
      (if r then HttpResp.ok d "audio/wav".data else HttpResp.serverError,
       [TEMP_AUDIO_DIR ++ [n]]) := by
  have hres := goodName_resolve fs n hg (by rw [hlk]; rfl)
  rw [serve_audio_resolved fs n _ (goodName_not_sep n hg) (goodName_not_pct n hg) hres]
  have hfile : fs.isFile (TEMP_AUDIO_DIR ++ [n]) = true := by
    rw [FS.isFile, hlk]
  have hcond : ¬ (¬ fs.isFile (TEMP_AUDIO_DIR ++ [n]) = true ∨
      ¬ strictlyInside TEMP_AUDIO_DIR (TEMP_AUDIO_DIR ++ [n])) := by
    rintro (hc | hc)
    · exact hc hfile
    · exact hc (strictlyInside_append TEMP_AUDIO_DIR n)
  rw [if_neg hcond]
  rw [lastSeg_append]
  have hres2 : resolveSegs fs RESOLVE_FUEL TEMP_AUDIO_DIR [n] =
      some (TEMP_AUDIO_DIR ++ [n]) := by
    obtain ⟨h0, h1x, h2x, -⟩ := hg
    exact resolveSegs_single fs RESOLVE_FUEL TEMP_AUDIO_DIR n h0 h1x h2x (by rw [hlk]; rfl)
  simp only [hres2, hlk]
  cases r <;> rfl

theorem serve_audio_absent (fs : FS) (n : Str)
    (hg : goodName n) (hlk : fs.lookup (TEMP_AUDIO_DIR ++ [n]) = none) :
    serve_audio fs n = (.notFound, []) := by
  have hres := goodName_resolve fs n hg (by rw [hlk]; rfl)
  rw [serve_audio_resolved fs n _ (goodName_not_sep n hg) (goodName_not_pct n hg) hres]
  rw [if_pos (Or.inl (by rw [FS.isFile, hlk]; simp))]

theorem cleanup_resolved_cases (fs : FS) (uri : Str) (rp : AbsPath)
    (hres : cleanupResolved fs uri = some rp) :
    cleanup_audio_tool fs uri =
      if TEMP_AUDIO_DIR.isPrefixOf rp then
        if fs.isFile rp then (.ok ⟨true, none⟩, fs.erase rp, [rp])
        else (.ok ⟨false, some "File not found at specified URI".data⟩, fs, [])
      else
        (.error (.mockServerError (cleanupMsg "Invalid audio URI (path mismatch)".data)),
         fs, []) := by
  rw [cleanupResolved] at hres
  split at hres
  · exact Option.noConfusion hres
  next f heq =>
    have hnil : uri ≠ [] := by
      intro he
      subst he
      rw [show extractFilename [] = Except.error "Invalid audio URI format".data from rfl] at heq
      cases heq
    rw [cleanup_audio_tool, if_neg hnil, heq]
    simp only [hres]

theorem cleanup_unresolved (fs : FS) (uri : Str) (hres : cleanupResolved fs uri = none)
    (hnil : uri ≠ []) :
    ∃ e, cleanup_audio_tool fs uri = (.error e, fs, []) := by
  rw [cleanupResolved] at hres
  split at hres
  next m heq =>
    exact ⟨_, by rw [cleanup_audio_tool, if_neg hnil, heq]⟩
  next f heq =>
    refine ⟨.mockServerError (cleanupMsg "Invalid audio URI (path resolution failed)".data), ?_⟩
    rw [cleanup_audio_tool, if_neg hnil, heq]
    simp only [hres]

theorem cleanup_unlinked_spec (fs : FS) (uri : Str) :
    ∀ p ∈ (cleanup_audio_tool fs uri).2.2,
      cleanupResolved fs uri = some p ∧ TEMP_AUDIO_DIR.isPrefixOf p = true ∧
      fs.isFile p = true ∧ (cleanup_audio_tool fs uri).2.1 = fs.erase p := by
  intro p hp
  by_cases hnil : uri = []
  · subst hnil
    simp [cleanup_audio_tool] at hp
  cases hres : cleanupResolved fs uri with
  | none =>
    obtain ⟨e, he⟩ := cleanup_unresolved fs uri hres hnil
    rw [he] at hp
    simp at hp
  | some rp =>
    rw [cleanup_resolved_cases fs uri rp hres] at hp ⊢
    by_cases h1 : TEMP_AUDIO_DIR.isPrefixOf rp = true
    · rw [if_pos h1] at hp ⊢
      by_cases h2 : fs.isFile rp = true
      · rw [if_pos h2] at hp ⊢
        simp only [List.mem_singleton] at hp
        subst hp
        exact ⟨rfl, h1, h2, rfl⟩
      · rw [if_neg h2] at hp
        simp at hp
    · rw [if_neg h1] at hp
      simp at hp

theorem mkstempName_isStoreName (a : Alloc) (n : Nat) : isStoreName (mkstempName a n) :=
  ⟨a.core n, rfl, a.core_mem n⟩

theorem generate_speech_audio_cases (svc : KokoroSvc) (text voice_id : Str) (sp : Int)
    (hm : svc.modelLoaded = true) (hv : voice_id ∈ svc.voices)
    (hp : voice_id.headD ' ' ∈ svc.pipelines) :
    generate_speech_audio svc text voice_id sp =
      match svc.engine text voice_id sp with
      | [] =>
        (.error (.runtimeError
          ("Audio generation failed: ".data ++
           "Failed to generate any audio segments from the input.".data)),
         ⟨1, 0, []⟩)
      | _ :: _ =>
        (.ok (TEMP_AUDIO_DIR ++ [mkstempName svc.alloc svc.allocCounter]),
         ⟨1, 1, [TEMP_AUDIO_DIR ++ [mkstempName svc.alloc svc.allocCounter]]⟩) := by
  rw [generate_speech_audio, if_neg (by simp [hm]), if_neg (by simp [hv]),
    if_neg (by simpa using hp)]

theorem generate_speech_audio_ok (svc : KokoroSvc) (text voice_id : Str) (sp : Int)
    (path : AbsPath) (tr : SvcTrace)
    (h : generate_speech_audio svc text voice_id sp = (.ok path, tr)) :
    path = TEMP_AUDIO_DIR ++ [mkstempName svc.alloc svc.allocCounter] ∧
    tr = ⟨1, 1, [path]⟩ := by
  rw [generate_speech_audio] at h
  split at h
  · simp [Prod.ext_iff] at h
  split at h
  · simp [Prod.ext_iff] at h
  split at h
  · simp [Prod.ext_iff] at h
  split at h
  · simp [Prod.ext_iff] at h
  · simp only [Prod.mk.injEq] at h
    obtain ⟨h1, h2⟩ := h
    cases h1
    exact ⟨rfl, h2.symm⟩

theorem generate_speech_tool_ok (svc : KokoroSvc) (text voice_id : Str) (sp : PyVal)
    (res : GenRes) (tr : SvcTrace)
    (h : generate_speech_tool svc text voice_id sp = (.ok res, tr)) :
    tr.created = [TEMP_AUDIO_DIR ++ [mkstempName svc.alloc svc.allocCounter]] ∧
    res = ⟨buildUri (mkstempName svc.alloc svc.allocCounter), "wav".data⟩ := by
  rw [generate_speech_tool] at h
  split at h
  · simp [Prod.ext_iff] at h
  split at h
  · simp [Prod.ext_iff] at h
  next sp2 heqf =>
    split at h
    next e tr2 heqg => simp [Prod.ext_iff] at h
    next path tr2 heqg =>
      obtain ⟨hpath, htr⟩ := generate_speech_audio_ok svc text voice_id sp2 path tr2 heqg
      simp only [Prod.mk.injEq] at h
      obtain ⟨h1, h2⟩ := h
      cases h1
      subst h2
      subst htr
      subst hpath
      exact ⟨rfl, by rw [lastSeg_append]⟩


/-- Claim C3: every filename the artifact store produces (a
tempfile.mkstemp name: the tmp prefix, a random core drawn from the
tempfile alphabet, and the .wav suffix; in particular non-empty and free
of path separators) round-trips exactly: building the URI the way
generate_speech does and parsing it the way cleanup_audio does (urlparse,
then the final path segment) recovers the original filename. -/
theorem claim3_store_uri_roundtrip :
    (∀ (a : Alloc) (n : Nat), isStoreName (mkstempName a n)) ∧
    (∀ fn : Str, isStoreName fn → extractFilename (buildUri fn) = .ok fn) := by
  refine ⟨mkstempName_isStoreName, ?_⟩
  intro fn h
  obtain ⟨h0, h1, h2, h7, hq, hh, hb, hp⟩ := isStoreName_good fn h
  exact extractFilename_buildUri fn h7 hq hh h0 h1

theorem claim3_witness :
    isStoreName "tmpabc.wav".data ∧
    extractFilename (buildUri "tmpabc.wav".data) = .ok "tmpabc.wav".data := by
  have hs : isStoreName "tmpabc.wav".data := ⟨"abc".data, rfl, by decide⟩
  exact ⟨hs, claim3_store_uri_roundtrip.2 "tmpabc.wav".data hs⟩

/-- Claim C6: a generate_speech call with empty text or empty voice_id
fails with the missing-argument ValueError before any collaborator is
invoked: the trace records zero engine invocations, zero consumed
segments, and no created artifact. -/
theorem claim6_missing_args_before_collaborators
    (svc : KokoroSvc) (text voice_id : Str) (sp : PyVal)
    (h : text = [] ∨ voice_id = []) :
    generate_speech_tool svc text voice_id sp =
      (.error (.valueError "Missing required arguments: text and voice_id".data),
       ⟨0, 0, []⟩) := by
  rw [generate_speech_tool, if_pos h]

theorem claim6_witness :
    generate_speech_tool svcDemo [] "af_demo".data (.num 1) =
      (.error (.valueError "Missing required arguments: text and voice_id".data),
       ⟨0, 0, []⟩) :=
  claim6_missing_args_before_collaborators svcDemo [] "af_demo".data (.num 1) (Or.inl rfl)

/-- Claim C7: under its preconditions generate_speech_audio invokes the
engine pipeline exactly once and consumes at most its first segment;
when the pipeline yields no segment it raises the wrapped synthesis-empty
error and creates no artifact, and when it yields at least one segment
only that first segment is consumed and a single artifact path is
returned. -/
theorem claim7_first_segment_only (svc : KokoroSvc) (text voice_id : Str) (sp : Int)
    (hm : svc.modelLoaded = true) (hv : voice_id ∈ svc.voices)
    (hp : voice_id.headD ' ' ∈ svc.pipelines) :
    (generate_speech_audio svc text voice_id sp).2.engineInvocations = 1 ∧
    (generate_speech_audio svc text voice_id sp).2.segmentsConsumed ≤ 1 ∧
    (svc.engine text voice_id sp = [] →
      (generate_speech_audio svc text voice_id sp).1 =
        .error (.runtimeError
          ("Audio generation failed: ".data ++
           "Failed to generate any audio segments from the input.".data)) ∧
      (generate_speech_audio svc text voice_id sp).2.created = []) ∧
    (∀ s rest, svc.engine text voice_id sp = s :: rest →
      (generate_speech_audio svc text voice_id sp).2.segmentsConsumed = 1 ∧
      (generate_speech_audio svc text voice_id sp).1 =
        .ok (TEMP_AUDIO_DIR ++ [mkstempName svc.alloc svc.allocCounter])) := by
  rw [generate_speech_audio_cases svc text voice_id sp hm hv hp]
  cases hE : svc.engine text voice_id sp with
  | nil =>
    refine ⟨rfl, by simp, fun _ => ⟨rfl, rfl⟩, ?_⟩
    intro s rest hc
    exact List.noConfusion hc
  | cons s0 rest0 =>
    refine ⟨rfl, Nat.le_refl 1, ?_, ?_⟩
    · intro hc
      exact List.noConfusion hc
    · intro s rest hc
      exact ⟨rfl, rfl⟩

theorem claim7_witness :
    (generate_speech_audio svcDemo "x".data "af_demo".data 1).2.engineInvocations = 1 ∧
    (generate_speech_audio svcDemo "x".data "af_demo".data 1).1 =
      .error (.runtimeError
        ("Audio generation failed: ".data ++
         "Failed to generate any audio segments from the input.".data)) ∧
    (generate_speech_audio svcDemo "x".data "af_demo".data 1).2.created = [] := by
  have h := claim7_first_segment_only svcDemo "x".data "af_demo".data 1
    (by decide) (by decide) (by decide)
  have h3 := h.2.2.1 (by decide)
  exact ⟨h.1, h3.1, h3.2⟩

/-- Claim C4: deletion is idempotent and absence is benign — for a
store-produced filename, cleanup_audio on its URI deletes the file and
returns success when it exists, and a second call (or a call when the
file never existed) returns the not-found result dictionary as a
successful tool outcome, never a dispatch error. -/
theorem claim4_delete_idempotent (fs : FS) (fn : Str) (h : isStoreName fn) :
    (∀ d r, fs.lookup (TEMP_AUDIO_DIR ++ [fn]) = some (.file d r) →
      cleanup_audio_tool fs (buildUri fn) =
        (.ok ⟨true, none⟩, fs.erase (TEMP_AUDIO_DIR ++ [fn]),
         [TEMP_AUDIO_DIR ++ [fn]]) ∧
      cleanup_audio_tool (fs.erase (TEMP_AUDIO_DIR ++ [fn])) (buildUri fn) =
        (.ok ⟨false, some "File not found at specified URI".data⟩,
         fs.erase (TEMP_AUDIO_DIR ++ [fn]), [])) ∧
    (fs.lookup (TEMP_AUDIO_DIR ++ [fn]) = none →
      cleanup_audio_tool fs (buildUri fn) =
        (.ok ⟨false, some "File not found at specified URI".data⟩, fs, [])) := by
  have hg := isStoreName_good fn h
  obtain ⟨h0, h1, h2, h7, hq, hh, hb, hp⟩ := hg
  have hext : extractFilename (buildUri fn) = .ok fn :=
    extractFilename_buildUri fn h7 hq hh h0 h1
  have hres : ∀ fs2 : FS, isSymlinkNode (fs2.lookup (TEMP_AUDIO_DIR ++ [fn])) = false →
      cleanupResolved fs2 (buildUri fn) = some (TEMP_AUDIO_DIR ++ [fn]) := by
    intro fs2 hsym
    rw [cleanupResolved]
    simp only [hext]
    exact goodName_resolve fs2 fn ⟨h0, h1, h2, h7, hq, hh, hb, hp⟩ hsym
  constructor
  · intro d r hlk
    have hres1 := hres fs (by rw [hlk]; rfl)
    have hres2 := hres (fs.erase (TEMP_AUDIO_DIR ++ [fn]))
      (by rw [FS.lookup_erase_self]; rfl)
    constructor
    · rw [cleanup_resolved_cases fs (buildUri fn) _ hres1,
        if_pos (by simp), if_pos (by rw [FS.isFile, hlk])]
    · rw [cleanup_resolved_cases (fs.erase (TEMP_AUDIO_DIR ++ [fn])) (buildUri fn) _ hres2,
        if_pos (by simp), if_neg (by rw [FS.isFile, FS.lookup_erase_self]; simp)]
  · intro hlk
    have hres1 := hres fs (by rw [hlk]; rfl)
    rw [cleanup_resolved_cases fs (buildUri fn) _ hres1,
      if_pos (by simp), if_neg (by rw [FS.isFile, hlk]; simp)]

theorem claim4_witness :
    cleanup_audio_tool fsDemo (buildUri "tmpabc.wav".data) =
      (.ok ⟨true, none⟩, fsDemo.erase (TEMP_AUDIO_DIR ++ ["tmpabc.wav".data]),
       [TEMP_AUDIO_DIR ++ ["tmpabc.wav".data]]) ∧
    cleanup_audio_tool (fsDemo.erase (TEMP_AUDIO_DIR ++ ["tmpabc.wav".data]))
        (buildUri "tmpabc.wav".data) =
      (.ok ⟨false, some "File not found at specified URI".data⟩,
       fsDemo.erase (TEMP_AUDIO_DIR ++ ["tmpabc.wav".data]), []) :=
  (claim4_delete_idempotent fsDemo "tmpabc.wav".data
    ⟨"abc".data, rfl, by decide⟩).1 7 true (by decide)

/-- Claim C1 (amended): a candidate starting with a path separator or with
the percent-encoded separators %2F or %5C is answered 404 with no file
opened; a candidate whose resolved absolute path is not a strict
descendant of TEMP_AUDIO_DIR is answered 404 with no file opened; and
when no direct child of the artifact directory is a symbolic link,
every file the handler opens lies strictly inside TEMP_AUDIO_DIR.  Two
clauses of the original claim fail on the code (see the counterexample):
a candidate merely containing dot-dot segments is not always answered
404 (one that resolves back inside the directory to an existing
artifact is served), and the blanket no-outside-read guarantee does not
survive symbolic links, because the send step flattens the resolved
path to its final segment and serves TEMP_AUDIO_DIR/<that segment>
following any symbolic link found there, which can open and serve a
file outside the directory. -/
theorem claim1_path_confinement (fs : FS) (filename : Str) :
    ((startsWith ['/'] filename || startsWith ['\\'] filename ||
      startsWith "%2F".data filename || startsWith "%5C".data filename) = true →
      serve_audio fs filename = (.notFound, [])) ∧
    (∀ rp, resolveSegs fs RESOLVE_FUEL TEMP_AUDIO_DIR (parseSegs filename) = some rp →
      ¬ strictlyInside TEMP_AUDIO_DIR rp →
      serve_audio fs filename = (.notFound, [])) ∧
    ((∀ n, isSymlinkNode (fs.lookup (TEMP_AUDIO_DIR ++ [n])) = false) →
      ∀ p ∈ (serve_audio fs filename).2, strictlyInside TEMP_AUDIO_DIR p) :=
  ⟨serve_audio_reject fs filename,
   fun rp hres h => serve_audio_not_inside fs filename rp hres h,
   fun hns => serve_audio_opened_inside fs filename hns⟩

theorem claim1_witness :
    serve_audio fsDemo "/etc/passwd".data = (HttpResp.notFound, []) ∧
    serve_audio fsDemo "../config.py".data = (HttpResp.notFound, []) ∧
    ∀ p ∈ (serve_audio fsDemo "tmpabc.wav".data).2, strictlyInside TEMP_AUDIO_DIR p := by
  refine ⟨(claim1_path_confinement fsDemo "/etc/passwd".data).1 (by decide),
    (claim1_path_confinement fsDemo "../config.py".data).2.1
      ["app".data, "kokoro-mcp-server".data, "config.py".data] (by decide) (by decide),
    (claim1_path_confinement fsDemo "tmpabc.wav".data).2.2 ?_⟩
  intro n
  have hne1 : ¬ TEMP_AUDIO_DIR = TEMP_AUDIO_DIR ++ [n] := by
    intro he
    have := congrArg List.length he
    simp at this
  show isSymlinkNode (fsFind fsDemo.entries (TEMP_AUDIO_DIR ++ [n])) = false
  rw [show fsDemo.entries =
    [(TEMP_AUDIO_DIR, Node.dir),
     (TEMP_AUDIO_DIR ++ ["tmpabc.wav".data], Node.file 7 true)] from rfl]
  rw [fsFind, if_neg hne1, fsFind]
  by_cases hn : TEMP_AUDIO_DIR ++ ["tmpabc.wav".data] = TEMP_AUDIO_DIR ++ [n]
  · rw [if_pos hn]
    rfl
  · rw [if_neg hn, fsFind]
    rfl

theorem claim1_counterexample :
    (['.', '.'] ∈ parseSegs "d/../tmpabc.wav".data ∧
     (serve_audio fsDemo "d/../tmpabc.wav".data).1 = HttpResp.ok 7 "audio/wav".data ∧
     HttpResp.ok 7 "audio/wav".data ≠ HttpResp.notFound) ∧
    ((serve_audio fsLeak "sub/f.wav".data).1 = HttpResp.ok 9 "audio/wav".data ∧
     ["etc".data, "secret".data] ∈ (serve_audio fsLeak "sub/f.wav".data).2 ∧
     ¬ strictlyInside TEMP_AUDIO_DIR ["etc".data, "secret".data]) := by
  refine ⟨⟨by decide, by decide, by decide⟩, by decide, by decide, by decide⟩

/-- Claim C8 (amended): GET /audio/<filename> responds 200 with the file
bytes and the wave-audio content type on success, and responds 404 both
for path-safety rejections and for absent or non-file targets, without
distinguishing the two; an internal read error, however, is answered
500 rather than 404 (see the counterexample), as is a resolution
failure. -/
theorem claim8_response_classes (fs : FS) :
    (∀ filename, (startsWith ['/'] filename || startsWith ['\\'] filename ||
        startsWith "%2F".data filename || startsWith "%5C".data filename) = true →
      serve_audio fs filename = (.notFound, [])) ∧
    (∀ filename rp,
      resolveSegs fs RESOLVE_FUEL TEMP_AUDIO_DIR (parseSegs filename) = some rp →
      ¬ strictlyInside TEMP_AUDIO_DIR rp → serve_audio fs filename = (.notFound, [])) ∧
    (∀ n, goodName n → fs.lookup (TEMP_AUDIO_DIR ++ [n]) = none →
      serve_audio fs n = (.notFound, [])) ∧
    (∀ n d, goodName n → fs.lookup (TEMP_AUDIO_DIR ++ [n]) = some (.file d true) →
      serve_audio fs n = (.ok d "audio/wav".data, [TEMP_AUDIO_DIR ++ [n]])) ∧
    (∀ n d, goodName n → fs.lookup (TEMP_AUDIO_DIR ++ [n]) = some (.file d false) →
      serve_audio fs n = (.serverError, [TEMP_AUDIO_DIR ++ [n]])) := by
  refine ⟨serve_audio_reject fs, fun f rp h1 h2 => serve_audio_not_inside fs f rp h1 h2,
    fun n hg hlk => serve_audio_absent fs n hg hlk, ?_, ?_⟩
  · intro n d hg hlk
    have h := serve_audio_direct fs n d true hg hlk
    simpa using h
  · intro n d hg hlk
    have h := serve_audio_direct fs n d false hg hlk
    simpa using h

theorem claim8_witness :
    serve_audio fsDemo "tmpabc.wav".data =
      (HttpResp.ok 7 "audio/wav".data, [TEMP_AUDIO_DIR ++ ["tmpabc.wav".data]]) ∧
    serve_audio fsDemo "tmpmissing.wav".data = (HttpResp.notFound, []) := by
  constructor
  · exact (claim8_response_classes fsDemo).2.2.2.1 "tmpabc.wav".data 7 (by decide) (by decide)
  · exact (claim8_response_classes fsDemo).2.2.1 "tmpmissing.wav".data (by decide) (by decide)

theorem claim8_counterexample :
    (serve_audio fsUnreadable "tmpabc.wav".data).1 = HttpResp.serverError ∧
    HttpResp.serverError ≠ HttpResp.notFound := by
  refine ⟨by decide, by decide⟩

/-- Claim C2: cleanup_audio never deletes a file outside the artifact
directory — the candidate filename extracted from the URI is resolved
once (following dot-dot segments and symbolic links), every unlinked
path is that resolved path, is a strict descendant of TEMP_AUDIO_DIR,
and was a regular file, with the filesystem updated exactly by its
removal; and a candidate whose resolved path lies outside TEMP_AUDIO_DIR
produces a dispatch error (the wrapped MockMCPServerError), never a
result dictionary and never a deletion. -/
theorem claim2_cleanup_containment (fs : FS) (uri : Str)
    (hdir : fs.lookup TEMP_AUDIO_DIR = some .dir) :
    (∀ p ∈ (cleanup_audio_tool fs uri).2.2,
      cleanupResolved fs uri = some p ∧ strictlyInside TEMP_AUDIO_DIR p ∧
      fs.isFile p = true ∧ (cleanup_audio_tool fs uri).2.1 = fs.erase p) ∧
    (∀ rp, cleanupResolved fs uri = some rp → ¬ TEMP_AUDIO_DIR.isPrefixOf rp = true →
      (∃ m, (cleanup_audio_tool fs uri).1 = .error (.mockServerError m)) ∧
      (cleanup_audio_tool fs uri).2.2 = []) := by
  constructor
  · intro p hp
    obtain ⟨h1, h2, h3, h4⟩ := cleanup_unlinked_spec fs uri p hp
    refine ⟨h1, ⟨h2, ?_⟩, h3, h4⟩
    intro he
    rw [he, FS.isFile, hdir] at h3
    cases h3
  · intro rp hres hout
    rw [cleanup_resolved_cases fs uri rp hres, if_neg hout]
    exact ⟨⟨_, rfl⟩, rfl⟩

theorem claim2_witness :
    (∃ m, (cleanup_audio_tool fsDemo "http://127.0.0.1:8080/audio/..".data).1 =
      .error (.mockServerError m)) ∧
    (cleanup_audio_tool fsDemo "http://127.0.0.1:8080/audio/..".data).2.2 = [] :=
  (claim2_cleanup_containment fsDemo "http://127.0.0.1:8080/audio/..".data (by decide)).2
    ["app".data, "kokoro-mcp-server".data] (by decide) (by decide)

/-- Claim C10: cleanup_audio only ever unlinks regular files, never a
directory — although its containment check is non-strict (a candidate
resolving exactly to TEMP_AUDIO_DIR passes the is_relative_to test,
first conjunct of the last clause), such a candidate falls through the
is_file guard and yields the not-found result dictionary, so the
artifact directory itself is never deleted by any input. -/
theorem claim10_never_unlinks_directory (fs : FS) (uri : Str)
    (hdir : fs.lookup TEMP_AUDIO_DIR = some .dir) :
    (∀ p ∈ (cleanup_audio_tool fs uri).2.2, ∃ d r, fs.lookup p = some (.file d r)) ∧
    TEMP_AUDIO_DIR ∉ (cleanup_audio_tool fs uri).2.2 ∧
    (cleanupResolved fs uri = some TEMP_AUDIO_DIR →
      TEMP_AUDIO_DIR.isPrefixOf TEMP_AUDIO_DIR = true ∧
      cleanup_audio_tool fs uri =
        (.ok ⟨false, some "File not found at specified URI".data⟩, fs, [])) := by
  have hfile : ∀ p ∈ (cleanup_audio_tool fs uri).2.2,
      ∃ d r, fs.lookup p = some (.file d r) := by
    intro p hp
    obtain ⟨-, -, h3, -⟩ := cleanup_unlinked_spec fs uri p hp
    rw [FS.isFile] at h3
    revert h3
    cases hlk : fs.lookup p with
    | none => simp
    | some node =>
      cases node with
      | file d r => exact fun _ => ⟨d, r, rfl⟩
      | dir => simp
      | symlink a t => simp
  refine ⟨hfile, ?_, ?_⟩
  · intro hmem
    obtain ⟨d, r, hlk⟩ := hfile TEMP_AUDIO_DIR hmem
    rw [hdir] at hlk
    cases hlk
  · intro hres
    refine ⟨by simp, ?_⟩
    rw [cleanup_resolved_cases fs uri TEMP_AUDIO_DIR hres, if_pos (by simp),
      if_neg (by rw [FS.isFile, hdir]; simp)]

theorem claim10_witness :
    List.isPrefixOf TEMP_AUDIO_DIR TEMP_AUDIO_DIR = true ∧
    cleanup_audio_tool fsSelfLink "http://127.0.0.1:8080/audio/self".data =
      (.ok ⟨false, some "File not found at specified URI".data⟩, fsSelfLink, []) :=
  (claim10_never_unlinks_directory fsSelfLink "http://127.0.0.1:8080/audio/self".data
    (by decide)).2.2 (by decide)

/-- Claim C5: every artifact created by a successful generate_speech call
has a server-generated name produced by the mkstemp allocator — a tmp
prefixed name with the .wav suffix, determined solely by the service
state and identical across all client inputs — and its resolved path
lies strictly inside TEMP_AUDIO_DIR. -/
theorem claim5_artifact_invariant (svc : KokoroSvc) (text voice_id : Str) (sp : PyVal)
    (res : GenRes) (tr : SvcTrace)
    (h : generate_speech_tool svc text voice_id sp = (.ok res, tr)) :
    tr.created = [TEMP_AUDIO_DIR ++ [mkstempName svc.alloc svc.allocCounter]] ∧
    (∀ p ∈ tr.created, strictlyInside TEMP_AUDIO_DIR p ∧ isStoreName (lastSeg p)) ∧
    (∀ t2 v2 s2 r2 tr2, generate_speech_tool svc t2 v2 s2 = (.ok r2, tr2) →
      tr2.created = tr.created) := by
  obtain ⟨hc, -⟩ := generate_speech_tool_ok svc text voice_id sp res tr h
  refine ⟨hc, ?_, ?_⟩
  · intro p hp
    rw [hc] at hp
    simp only [List.mem_singleton] at hp
    subst hp
    refine ⟨strictlyInside_append _ _, ?_⟩
    rw [lastSeg_append]
    exact mkstempName_isStoreName _ _
  · intro t2 v2 s2 r2 tr2 h2
    rw [(generate_speech_tool_ok svc t2 v2 s2 r2 tr2 h2).1, hc]

theorem claim5_witness :
    (generate_speech_tool svcDemo "hello".data "af_demo".data (.num 1)).2.created =
      [TEMP_AUDIO_DIR ++ [mkstempName svcDemo.alloc svcDemo.allocCounter]] := by
  have heq : generate_speech_tool svcDemo "hello".data "af_demo".data (.num 1) =
      (.ok ⟨buildUri "tmpabcd0123.wav".data, "wav".data⟩,
       ⟨1, 1, [TEMP_AUDIO_DIR ++ ["tmpabcd0123.wav".data]]⟩) := by decide
  have h := claim5_artifact_invariant svcDemo "hello".data "af_demo".data (.num 1) _ _ heq
  rw [heq]
  exact h.1

/-- Claim C9 (amended): the dispatch boundary assigns the error-envelope
code by failure class — an unknown method yields -32601; the
missing-argument ValueErrors the tools raise outside their try blocks
(empty audio_uri, empty text or voice_id) yield -32602; but a malformed
audio_uri and a non-numeric speed are caught inside the tools and
re-raised as MockMCPServerError, so they yield the generic -32000 (see
the counterexample), and every other failure also yields -32000. -/
theorem claim9_error_codes (svc : KokoroSvc) (fs : FS) :
    (∀ m, handle_request svc fs (.unknownMethod m) =
      (.rpcError (-32601) ("Method not found: ".data ++ m), fs)) ∧
    (handle_request svc fs (.cleanupAudio []) =
      (.rpcError (-32602) "Missing required argument: audio_uri".data, fs)) ∧
    (∀ t v sp, t = [] ∨ v = [] →
      handle_request svc fs (.generateSpeech t v sp) =
        (.rpcError (-32602) "Missing required arguments: text and voice_id".data, fs)) ∧
    (∀ uri m, extractFilename uri = .error m → uri ≠ [] →
      handle_request svc fs (.cleanupAudio uri) =
        (.rpcError (-32000) (cleanupMsg m), fs)) ∧
    (∀ t v s m, ¬ (t = [] ∨ v = []) → pyFloat s = .error m →
      (handle_request svc fs (.generateSpeech t v s)).1 = .rpcError (-32000) m) ∧
    (∀ req c m fs2, handle_request svc fs req = (.rpcError c m, fs2) →
      c = -32601 ∨ c = -32602 ∨ c = -32000) := by
  refine ⟨fun m => rfl, rfl, ?_, ?_, ?_, ?_⟩
  · intro t v sp h
    have hg : generate_speech_tool svc t v sp =
        (.error (.valueError "Missing required arguments: text and voice_id".data),
         ⟨0, 0, []⟩) := by
      rw [generate_speech_tool, if_pos h]
    simp [handle_request, hg, errCodeOf, pyErrMsg]
  · intro uri m hext hnil
    have hc : cleanup_audio_tool fs uri =
        (.error (.mockServerError (cleanupMsg m)), fs, []) := by
      rw [cleanup_audio_tool, if_neg hnil, hext]
    simp [handle_request, hc, errCodeOf, pyErrMsg]
  · intro t v s m hne hflt
    have hg : generate_speech_tool svc t v s =
        (.error (.mockServerError m), ⟨0, 0, []⟩) := by
      rw [generate_speech_tool, if_neg hne, hflt]
    simp [handle_request, hg, errCodeOf, pyErrMsg]
  · intro req c m fs2 h
    cases req with
    | listVoices => simp [handle_request, Prod.ext_iff] at h
    | generateSpeech t v s =>
      simp only [handle_request] at h
      split at h
      · simp [Prod.ext_iff] at h
      next e tr heq =>
        simp only [Prod.mk.injEq] at h
        obtain ⟨h1, -⟩ := h
        cases h1
        cases e <;> simp [errCodeOf]
    | cleanupAudio uri =>
      simp only [handle_request] at h
      split at h
      · simp [Prod.ext_iff] at h
      next e fs3 unl heq =>
        simp only [Prod.mk.injEq] at h
        obtain ⟨h1, -⟩ := h
        cases h1
        cases e <;> simp [errCodeOf]
    | unknownMethod m2 =>
      simp only [handle_request, Prod.mk.injEq] at h
      obtain ⟨h1, -⟩ := h
      cases h1
      exact Or.inl rfl

theorem claim9_witness :
    handle_request svcDemo fsDemo (.unknownMethod "nope".data) =
      (.rpcError (-32601) ("Method not found: ".data ++ "nope".data), fsDemo) ∧
    handle_request svcDemo fsDemo (.cleanupAudio []) =
      (.rpcError (-32602) "Missing required argument: audio_uri".data, fsDemo) ∧
    handle_request svcDemo fsDemo (.generateSpeech [] "v".data (.num 1)) =
      (.rpcError (-32602) "Missing required arguments: text and voice_id".data, fsDemo) ∧
    (handle_request svcDemo fsDemo
      (.generateSpeech "hi".data "af_demo".data (.str "abc".data))).1 =
      .rpcError (-32000) "could not convert string to float".data := by
  have h := claim9_error_codes svcDemo fsDemo
  exact ⟨h.1 "nope".data, h.2.1, h.2.2.1 [] "v".data (.num 1) (Or.inl rfl),
    h.2.2.2.2.1 "hi".data "af_demo".data (.str "abc".data)
      "could not convert string to float".data (by decide) (by decide)⟩

theorem claim9_counterexample :
    (handle_request svcDemo fsDemo (.cleanupAudio "http:/invalid-uri".data)).1 =
      .rpcError (-32000) (cleanupMsg "Invalid audio URI format".data) ∧
    (-32000 : Int) ≠ -32602 := by
  refine ⟨by decide, by decide⟩

end Kokoro
